import Mathlib

/-!
Verification of the sling_runner orchestration scripts.

The development shallowly embeds the Python sources:
  * `SlingRunner.SlingRun.resolve_env_vars`  — `src/sling_run.py`, lines 62–68
  * `SlingRunner.DbtRun.resolve_env_vars`    — `src/dbt/dbt_after_el/dbt_run.py`, lines 76–94
  * `SlingRunner.get_auth_headers`, `run_app`, `wait_for_run`, `mainRun`
                                             — `src/job/job_api.py`
External effects (environment lookup, HTTP responses, the remote run's
status stream) are passed in as explicit functions/values; `time.sleep` and
wall-clock time are modelled by counting poll iterations, each poll taking
one `poll_interval` of time.
-/

namespace SlingRunner

/-- Python truthiness of an optional string: `None` and the empty string are
falsy, every other string is truthy.  Models `if X:` where `X` is
`os.getenv(...)` or `dict.get(...)` on a string field. -/
def truthy : Option String → Bool
  | none => false
  | some s => !(s == "")

/-! ## A model of CPython `float(str)` acceptance

`dbt_run.py` decides whether to quote a resolved value by calling
`float(value)` and catching `ValueError`.  We model the set of strings the
CPython float constructor accepts (ASCII whitespace stripped at both ends,
optional sign, then `inf`/`infinity`/`nan` case-insensitively or a decimal
literal with optional fraction, exponent and single underscores between
digits). -/

/-- ASCII whitespace characters stripped by `float(str)`. -/
def isPyWs (c : Char) : Bool :=
  c == ' ' || c == '\t' || c == '\n' || c == '\r' || c == '\x0b' || c == '\x0c'

/-- Strip leading and trailing Python whitespace from a character list. -/
def stripWs (l : List Char) : List Char :=
  ((l.dropWhile isPyWs).reverse.dropWhile isPyWs).reverse

/-- Greedily consume further digits of a digit part: each step is an optional
single underscore followed by a digit, or a bare digit.  Returns the rest. -/
def eatDigits : List Char → List Char
  | '_' :: c :: rest => if c.isDigit then eatDigits rest else '_' :: c :: rest
  | c :: rest => if c.isDigit then eatDigits rest else c :: rest
  | [] => []

/-- Consume a digit part (`digit (underscore? digit)*`); `none` if the input
does not start with a digit. -/
def digitPart : List Char → Option (List Char)
  | c :: rest => if c.isDigit then some (eatDigits rest) else none
  | [] => none

/-- Consume an exponent (`(e|E) sign? digitpart`); `none` on failure. -/
def exponentPart : List Char → Option (List Char)
  | c :: rest =>
    if c == 'e' || c == 'E' then
      match rest with
      | s :: rest2 => if s == '+' || s == '-' then digitPart rest2 else digitPart rest
      | [] => none
    else none
  | [] => none

/-- Consume an optional exponent: succeeds consuming nothing when the input
does not start with `e`/`E`. -/
def optExponent (l : List Char) : Option (List Char) :=
  match l with
  | c :: _ => if c == 'e' || c == 'E' then exponentPart l else some l
  | [] => some l

/-- Consume an unsigned decimal float literal
(`digitpart [. digitpart?] exp?` or `. digitpart exp?`). -/
def numberPart (l : List Char) : Option (List Char) :=
  match digitPart l with
  | some rest =>
    match rest with
    | '.' :: rest2 =>
      match digitPart rest2 with
      | some rest3 => optExponent rest3
      | none => optExponent rest2
    | _ => optExponent rest
  | none =>
    match l with
    | '.' :: rest2 =>
      match digitPart rest2 with
      | some rest3 => optExponent rest3
      | none => none
    | _ => none

/-- Whether CPython `float(s)` succeeds (models the `try: float(value)`
in `dbt_run.py`). -/
def pyFloatParses (s : String) : Bool :=
  let l := stripWs s.toList
  let l := match l with
    | c :: r => if c == '+' || c == '-' then r else l
    | [] => l
  let low := l.map Char.toLower
  if low == "inf".toList || low == "infinity".toList || low == "nan".toList then
    true
  else
    match numberPart l with
    | some [] => true
    | _ => false

/-! ## The `${NAME}` substitution scanner

Both scripts run `re.sub(r'\$\x7b([^\x7d]+)\x7d', callback, template)`.
The pattern matches `$`, `\x7b`, one or more characters none of which is
`\x7d`, then `\x7d`; `re.sub` scans left to right, replacing leftmost
non-overlapping matches and advancing one character where no match starts. -/

/-- Split `l` at its first closing brace: `some (name, rest)` when
`l = name ++ brace :: rest` with no closing brace inside `name`;
`none` when `l` has no closing brace. -/
def findCloseBrace : List Char → Option (List Char × List Char)
  | [] => none
  | c :: rest =>
    if c == '\x7d' then some ([], rest)
    else
      match findCloseBrace rest with
      | some (nm, rest2) => some (c :: nm, rest2)
      | none => none

/-- One left-to-right pass of `re.sub(r'\$\x7b([^\x7d]+)\x7d', ...)`:
at `$` `\x7b` followed by a non-empty brace-free name and `\x7d`, emit
`repl name` and continue after the closing brace; otherwise emit the current
character and advance by one.  `fuel` makes the recursion structural; every
step consumes at least one input character, so any `fuel ≥` the input
length behaves as the unbounded scan (the callers pass the input length). -/
def resolveAux (repl : String → String) : Nat → List Char → List Char
  | 0, l => l
  | _ + 1, [] => []
  | fuel + 1, c :: rest =>
    if c == '$' then
      match rest with
      | c2 :: rest2 =>
        if c2 == '\x7b' then
          match findCloseBrace rest2 with
          | some (nm, rest3) =>
            if nm.isEmpty then c :: resolveAux repl fuel rest
            else (repl (String.mk nm)).toList ++ resolveAux repl fuel rest3
          | none => c :: resolveAux repl fuel rest
        else c :: resolveAux repl fuel rest
      | [] => [c]
    else c :: resolveAux repl fuel rest

/-- The literal placeholder text `$\x7bname\x7d` — `match.group(0)` for a
match whose captured group 1 is `name`. -/
def placeholder (name : String) : String :=
  "$\x7b" ++ name ++ "\x7d"

namespace SlingRun

/-- The substitution callback of `src/sling_run.py`:
`os.getenv(var_name, match.group(0))` — the environment value when present,
the original placeholder text when absent.  `env` models `os.getenv` as a
partial map from variable names to values. -/
def resolveValue (env : String → Option String) (name : String) : String :=
  (env name).getD (placeholder name)

/-- `resolve_env_vars` of `src/sling_run.py` applied over a whole template:
`re.sub(r'\$\x7b([^\x7d]+)\x7d', resolve_env_vars, env_yaml_content)`. -/
def resolve_env_vars (env : String → Option String) (template : String) : String :=
  String.mk (resolveAux (resolveValue env) template.toList.length template.toList)

end SlingRun

/-- `value.startswith('"')`: the first character is a double quote. -/
def startsWithQuote (s : String) : Bool :=
  match s.toList with
  | c :: _ => c == '"'
  | [] => false

/-- `value.endswith('"')`: the last character is a double quote. -/
def endsWithQuote (s : String) : Bool :=
  match s.toList.getLast? with
  | some c => c == '"'
  | none => false

namespace DbtRun

/-- The substitution callback of `src/dbt/dbt_after_el/dbt_run.py`
(lines 76–91): look the variable up with the placeholder text as default;
when a real, non-empty value came back, wrap it in double quotes if it
parses as a float, and also wrap it in double quotes if it is not already
both starting and ending with a double quote; otherwise return it as is. -/
def resolveValue (env : String → Option String) (name : String) : String :=
  let m0 := placeholder name
  let value := (env name).getD m0
  if value ≠ m0 ∧ value ≠ "" then
    if pyFloatParses value then "\"" ++ value ++ "\""
    else if startsWithQuote value ∧ endsWithQuote value then value
    else "\"" ++ value ++ "\""
  else value

/-- `resolve_env_vars` of `src/dbt/dbt_after_el/dbt_run.py` applied over a
whole template: `re.sub(r'\$\x7b([^\x7d]+)\x7d', resolve_env_vars,
profiles_yml_content)`. -/
def resolve_env_vars (env : String → Option String) (template : String) : String :=
  String.mk (resolveAux (resolveValue env) template.toList.length template.toList)

end DbtRun

/-! ## `src/job/job_api.py` — authentication, launch, wait, pipeline

The ambient credentials and the remote API are passed in explicitly:
`AuthInputs` carries what `os.getenv` and the cached session file would
yield, a `StartRunResponse` is the parsed JSON body of a successful
start-run POST, and a status stream `Nat → RunPayload` gives the parsed
JSON body of the `i`-th status GET. -/

/-- Credential sources of `get_auth_headers`: `TOWER_API_KEY`,
`TOWER_SESSION_TOKEN` (both as `os.getenv` results), and the cached
`~/.tower/session.json`: `none` when the file does not exist, `some none`
when it exists but reading/parsing fails or has no `token` key,
`some (some t)` when it holds token `t`. -/
structure AuthInputs where
  apiKey : Option String
  sessionToken : Option String
  sessionFile : Option (Option String)

/-- `get_auth_headers` (job_api.py lines 18–46): start from the
Content-Type header; use the API key if truthy, else the session token if
truthy, else a token found in the cached session file; raise `ValueError`
(the `.error` case) when no Authorization header was added. -/
def get_auth_headers (a : AuthInputs) : Except String (List (String × String)) :=
  let base := [("Content-Type", "application/json")]
  if truthy a.apiKey then
    .ok (base ++ [("Authorization", "Bearer " ++ a.apiKey.getD "")])
  else if truthy a.sessionToken then
    .ok (base ++ [("Authorization", "Bearer " ++ a.sessionToken.getD "")])
  else
    match a.sessionFile with
    | some (some tok) => .ok (base ++ [("Authorization", "Bearer " ++ tok)])
    | _ => .error "No Tower API authentication found"

/-- The two identifier fields the start-run response may carry; `none`
models an absent field (`dict.get` returning `None`). -/
structure StartRunResponse where
  run_id : Option String
  id : Option String
  deriving DecidableEq

/-- `result.get("run_id") or result.get("id")` followed by
`if not run_id: raise ValueError(...)` (job_api.py lines 75–78): Python
`or` yields the second operand whenever the first is falsy (`None` or
`""`), and the `not run_id` guard raises on a falsy result.  `none` is the
raise. -/
def extract_run_id (r : StartRunResponse) : Option String :=
  let v := if truthy r.run_id then r.run_id else r.id
  if truthy v then v else none

/-- Failures `run_app` can raise before returning a run id. -/
inductive AppError
  | authError (msg : String)
  | responseFormatError
  deriving DecidableEq

/-- Result of `run_app` together with whether the POST was issued. -/
structure RunAppResult where
  networkCalled : Bool
  result : Except AppError String

/-- `run_app` (job_api.py lines 49–81): obtain auth headers first — a raise
there propagates before any HTTP request — then POST (modelled by the given
parsed `response`) and extract the run id, raising `ValueError` when
neither field yields one. -/
def run_app (a : AuthInputs) (response : StartRunResponse) : RunAppResult :=
  match get_auth_headers a with
  | .error m => ⟨false, .error (.authError m)⟩
  | .ok _ =>
    match extract_run_id response with
    | some rid => ⟨true, .ok rid⟩
    | none => ⟨true, .error .responseFormatError⟩

/-- A parsed status payload: `status` and `error` fields, each possibly
absent. -/
structure RunPayload where
  status : Option String
  error : Option String
  deriving DecidableEq

/-- `status_data.get("status", "unknown")`. -/
def statusOf (p : RunPayload) : String :=
  p.status.getD "unknown"

/-- The terminal statuses checked by `wait_for_run` (job_api.py line 124). -/
def terminalStatuses : List String :=
  ["succeeded", "failed", "cancelled", "error"]

/-- Membership in the terminal-status list. -/
def isTerminal (s : String) : Bool :=
  terminalStatuses.contains s

/-- Python truthiness of the optional integer `timeout` argument:
`if timeout and ...` skips the timeout check when `timeout` is `None` or
`0`. -/
def timeoutTruthy : Option Nat → Bool
  | none => false
  | some t => !(t == 0)

/-- What a finite observation of `wait_for_run` can end with. -/
inductive WaitOutcome
  | completed (payload : RunPayload) (sleeps : Nat)
  | timedOut
  deriving DecidableEq

/-- `wait_for_run` (job_api.py lines 103–131).  `fetch i` is the payload of
the `i`-th status GET.  Time model: fetches are instantaneous and each
`time.sleep(poll_interval)` advances the clock by `poll_interval`, so at
the `i`-th iteration `time.time() - start_time = i * poll_interval`.  Each
iteration returns the payload if its status is terminal, then raises
`TimeoutError` (`.timedOut`) if the truthy timeout is strictly exceeded,
else sleeps and loops.  `fuel` bounds how many iterations are observed;
`none` means the loop was still running (the `while True` never exits by
itself).  In `.completed p i`, `i` is the number of sleeps performed. -/
def wait_for_run (fetch : Nat → RunPayload) (poll_interval : Nat)
    (timeout : Option Nat) : Nat → Nat → Option WaitOutcome
  | 0, _ => none
  | fuel + 1, i =>
    let p := fetch i
    if isTerminal (statusOf p) then some (.completed p i)
    else if timeoutTruthy timeout ∧ i * poll_interval > timeout.getD 0 then
      some .timedOut
    else wait_for_run fetch poll_interval timeout fuel (i + 1)

/-- Outcomes of the four external interactions `main` performs, in program
order: launch sling, wait for it, launch dbt, wait for it.  `.error`
models `run_app`/`wait_for_run` raising (caught by `except Exception`). -/
structure PipelineWorld where
  slingLaunch : Except Unit String
  slingWait : Except Unit RunPayload
  dbtLaunch : Except Unit String
  dbtWait : Except Unit RunPayload

/-- Observable outcome of `main` (job_api.py lines 134–215): the process
exit code, the apps for which `run_app` was invoked, and the run
identifiers printed (`"Started run: ..."` / `"Run ID: ..."`). -/
structure MainResult where
  exitCode : Nat
  appsLaunched : List String
  printedRunIds : List String
  deriving DecidableEq

/-- `main` (job_api.py lines 134–215): launch `sling_easy`, wait; on a
raise or a non-"succeeded" final status `sys.exit(1)` (a `SystemExit`,
which `except Exception` does not catch); otherwise launch `dbt_easy`,
wait, with the same checks; falling off the end exits 0. -/
def mainRun (w : PipelineWorld) : MainResult :=
  match w.slingLaunch with
  | .error _ => ⟨1, ["sling_easy"], []⟩
  | .ok slingId =>
    match w.slingWait with
    | .error _ => ⟨1, ["sling_easy"], [slingId]⟩
    | .ok st =>
      if statusOf st ≠ "succeeded" then ⟨1, ["sling_easy"], [slingId]⟩
      else
        match w.dbtLaunch with
        | .error _ => ⟨1, ["sling_easy", "dbt_easy"], [slingId]⟩
        | .ok dbtId =>
          match w.dbtWait with
          | .error _ => ⟨1, ["sling_easy", "dbt_easy"], [slingId, dbtId]⟩
          | .ok st2 =>
            if statusOf st2 ≠ "succeeded" then
              ⟨1, ["sling_easy", "dbt_easy"], [slingId, dbtId]⟩
            else ⟨0, ["sling_easy", "dbt_easy"], [slingId, dbtId]⟩

/-! ## Helper lemmas -/

theorem resolveAux_cons (repl : String → String) (fuel : Nat) (c : Char)
    (rest : List Char) :
    resolveAux repl (fuel + 1) (c :: rest) =
      if c == '$' then
        match rest with
        | c2 :: rest2 =>
          if c2 == '\x7b' then
            match findCloseBrace rest2 with
            | some (nm, rest3) =>
              if nm.isEmpty then c :: resolveAux repl fuel rest
              else (repl (String.mk nm)).toList ++ resolveAux repl fuel rest3
            | none => c :: resolveAux repl fuel rest
          else c :: resolveAux repl fuel rest
        | [] => [c]
      else c :: resolveAux repl fuel rest := rfl

theorem findCloseBrace_sound : ∀ {l nm rest : List Char},
    findCloseBrace l = some (nm, rest) → l = nm ++ '\x7d' :: rest := by
  intro l
  induction l with
  | nil => intro nm rest h; simp [findCloseBrace] at h
  | cons c cs ih =>
    intro nm rest h
    rw [findCloseBrace] at h
    by_cases hc : c == '\x7d'
    · simp only [hc, if_true] at h
      obtain ⟨h1, h2⟩ := Prod.mk.injEq .. ▸ Option.some.inj h
      subst h1
      subst h2
      simp [eq_of_beq hc]
    · simp only [hc, if_false] at h
      cases hfc : findCloseBrace cs with
      | none => rw [hfc] at h; exact absurd h (by simp)
      | some p =>
        obtain ⟨nm2, rest2⟩ := p
        rw [hfc] at h
        obtain ⟨h1, h2⟩ := Prod.mk.injEq .. ▸ Option.some.inj h
        subst h1
        subst h2
        simp [ih hfc]

theorem findCloseBrace_append : ∀ {nm rest : List Char}, '\x7d' ∉ nm →
    findCloseBrace (nm ++ '\x7d' :: rest) = some (nm, rest) := by
  intro nm rest h
  induction nm with
  | nil => simp [findCloseBrace]
  | cons c cs ih =>
    have hc : (c == '\x7d') = false := by
      simp only [beq_eq_false_iff_ne, ne_eq]
      intro hcc
      exact h (hcc ▸ List.mem_cons_self c cs)
    rw [List.cons_append, findCloseBrace, if_neg (by simp [hc]),
      ih (fun hm => h (List.mem_cons_of_mem c hm))]

theorem placeholder_toList (name : String) :
    (placeholder name).toList = '$' :: '\x7b' :: (name.toList ++ ['\x7d']) := by
  cases name with
  | mk data => rfl

theorem toList_ne_nil : ∀ {s : String}, s ≠ "" → s.toList ≠ []
  | ⟨[]⟩, h => absurd rfl h
  | ⟨_ :: _⟩, _ => fun hnil => List.noConfusion hnil

/-- When the callback returns the placeholder text for every name — which is
what both callbacks do over an environment with no variables set — the scan
is the identity. -/
theorem resolveAux_id {repl : String → String}
    (hrepl : ∀ s, repl s = placeholder s) :
    ∀ fuel l, resolveAux repl fuel l = l := by
  intro fuel
  induction fuel with
  | zero => intro l; cases l <;> rfl
  | succ n ih =>
    intro l
    cases l with
    | nil => rfl
    | cons c rest =>
      rw [resolveAux_cons]
      by_cases hc : c == '$'
      · simp only [hc, if_true]
        cases rest with
        | nil => rfl
        | cons c2 rest2 =>
          by_cases hc2 : c2 == '\x7b'
          · simp only [hc2, if_true]
            cases hfc : findCloseBrace rest2 with
            | none => simp [ih]
            | some p =>
              obtain ⟨nm, rest3⟩ := p
              by_cases hnm : nm.isEmpty
              · simp [hnm, ih]
              · simp only [hnm, if_false, Bool.false_eq_true]
                rw [hrepl, placeholder_toList, ih]
                have hsound := findCloseBrace_sound hfc
                subst hsound
                simp [eq_of_beq hc, eq_of_beq hc2]
          · simp [hc2, ih]
      · simp [hc, ih]

/-- Scanning a template that is exactly one well-formed placeholder yields
exactly the callback's replacement. -/
theorem resolveAux_single {repl : String → String} {name : String} {fuel : Nat}
    (h1 : name ≠ "") (h2 : '\x7d' ∉ name.toList) :
    resolveAux repl (fuel + 1) ((placeholder name).toList) = (repl name).toList := by
  rw [placeholder_toList, resolveAux_cons]
  simp only [if_true, beq_self_eq_true]
  rw [findCloseBrace_append h2]
  have hne : name.toList.isEmpty = false := by
    cases hl : name.toList with
    | nil => exact absurd hl (toList_ne_nil h1)
    | cons a l => rfl
  simp only [hne, Bool.false_eq_true, if_false]
  have : String.mk name.toList = name := by cases name with | mk d => rfl
  rw [this]
  cases fuel <;> simp [resolveAux]

theorem wait_ne_timedOut {fetch : Nat → RunPayload} {poll : Nat} {t : Option Nat}
    (ht : timeoutTruthy t = false) :
    ∀ fuel i, wait_for_run fetch poll t fuel i ≠ some WaitOutcome.timedOut := by
  intro fuel
  induction fuel with
  | zero => intro i h; simp [wait_for_run] at h
  | succ n ih =>
    intro i h
    rw [wait_for_run] at h
    by_cases hterm : isTerminal (statusOf (fetch i))
    · simp [hterm] at h
    · simp only [hterm, ht, if_false, Bool.false_eq_true, false_and, if_neg] at h
      exact ih (i + 1) h

theorem wait_completes {fetch : Nat → RunPayload} {poll : Nat} {t : Option Nat} {k : Nat}
    (ht : timeoutTruthy t = false)
    (hk : ∀ j, j < k → isTerminal (statusOf (fetch j)) = false)
    (hterm : isTerminal (statusOf (fetch k)) = true) :
    ∀ fuel i, i ≤ k → k - i < fuel →
      wait_for_run fetch poll t fuel i = some (WaitOutcome.completed (fetch k) k) := by
  intro fuel
  induction fuel with
  | zero => intro i h1 h2; omega
  | succ n ih =>
    intro i h1 h2
    rw [wait_for_run]
    by_cases hik : i = k
    · subst hik
      simp [hterm]
    · have hlt : i < k := by omega
      simp only [hk i hlt, ht, Bool.false_eq_true, if_false, false_and]
      exact ih (i + 1) (by omega) (by omega)

theorem wait_times_out {fetch : Nat → RunPayload} {poll : Nat} {t M : Nat}
    (hnt : ∀ j, j ≤ M → isTerminal (statusOf (fetch j)) = false)
    (ht0 : t ≠ 0) (hM : t < M * poll) :
    ∀ fuel i, i ≤ M → M - i < fuel →
      wait_for_run fetch poll (some t) fuel i = some WaitOutcome.timedOut := by
  intro fuel
  induction fuel with
  | zero => intro i h1 h2; omega
  | succ n ih =>
    intro i h1 h2
    rw [wait_for_run]
    by_cases hto : i * poll > t
    · simp [hnt i h1, timeoutTruthy, ht0, hto]
    · have hiM : i ≠ M := by
        intro he
        subst he
        omega
      simp only [hnt i h1, Bool.false_eq_true, if_false]
      rw [if_neg (by simp [timeoutTruthy, Option.getD]; omega)]
      exact ih (i + 1) (by omega) (by omega)

theorem mkToList (s : String) : String.mk s.toList = s := rfl

/-! ## Claims -/

/-- **C1** (counterexample to the claim as stated): resolving
`target: $\x7bTARGET\x7d` with `TARGET=dev` — a value that does not parse
as a floating-point number and is not already quoted — yields a quoted
`"dev"`, not the unquoted `dev` the claim requires. -/
theorem C1_counterexample :
    pyFloatParses "dev" = false ∧
    DbtRun.resolve_env_vars (fun n => if n == "TARGET" then some "dev" else none)
      "target: $\x7bTARGET\x7d" = "target: \"dev\"" ∧
    DbtRun.resolve_env_vars (fun n => if n == "TARGET" then some "dev" else none)
      "target: $\x7bTARGET\x7d" ≠ "target: dev" :=
  ⟨rfl, rfl, by decide⟩

/-- **C1** (amended): when the dbt-side Config Resolver substitutes a
placeholder whose variable is present with a non-empty value different from
the placeholder text itself, a value that parses as a floating-point number
is wrapped in double quotes in the output, and a value that does not parse
as a floating-point number is also wrapped in double quotes unless it
already both starts and ends with a double quote, in which case it is
substituted as is. -/
theorem C1_dbt_quoting (env : String → Option String) (name value : String)
    (hv : env name = some value) (hne : value ≠ "")
    (hnp : value ≠ placeholder name) (hn1 : name ≠ "")
    (hn2 : '\x7d' ∉ name.toList) :
    DbtRun.resolve_env_vars env (placeholder name) =
      (if pyFloatParses value then "\"" ++ value ++ "\""
       else if startsWithQuote value ∧ endsWithQuote value then value
       else "\"" ++ value ++ "\"") := by
  unfold DbtRun.resolve_env_vars
  have hlen : (placeholder name).toList.length = name.toList.length + 3 := by
    rw [placeholder_toList]
    simp
  rw [hlen, resolveAux_single hn1 hn2]
  have : DbtRun.resolveValue env name =
      (if pyFloatParses value then "\"" ++ value ++ "\""
       else if startsWithQuote value ∧ endsWithQuote value then value
       else "\"" ++ value ++ "\"") := by
    simp [DbtRun.resolveValue, hv, hnp, hne]
  rw [this, mkToList]

/-- **C1** (witness for the amended theorem): `PORT=5432` parses as a float
and comes out quoted. -/
theorem C1_witness :
    DbtRun.resolve_env_vars (fun n => if n == "PORT" then some "5432" else none)
      (placeholder "PORT") = "\"5432\"" :=
  (C1_dbt_quoting (fun n => if n == "PORT" then some "5432" else none)
    "PORT" "5432" rfl (by decide) (by decide) (by decide) (by decide)).trans (by rfl)

/-- **C2**: if stage 1's wait returns a terminal status other than
"succeeded", `run_app` is never invoked for the dbt app and the process
exits with code 1. -/
theorem C2_stage1_failure_gates_stage2 (w : PipelineWorld) (rid : String)
    (st : RunPayload) (hl : w.slingLaunch = .ok rid) (hw : w.slingWait = .ok st)
    (hterm : isTerminal (statusOf st) = true)
    (hne : statusOf st ≠ "succeeded") :
    (mainRun w).exitCode = 1 ∧ "dbt_easy" ∉ (mainRun w).appsLaunched := by
  obtain ⟨sl, sw, dl, dw⟩ := w
  simp only at hl hw
  subst hl
  subst hw
  refine ⟨by simp [mainRun, hne], by simp [mainRun, hne]⟩

/-- **C2** (witness): stage 1 ends "failed" in a world where stage 2 would
succeed; exit code is 1 and dbt is never launched. -/
theorem C2_witness :
    (mainRun ⟨.ok "r1", .ok ⟨some "failed", none⟩, .ok "r2",
      .ok ⟨some "succeeded", none⟩⟩).exitCode = 1 ∧
    "dbt_easy" ∉ (mainRun ⟨.ok "r1", .ok ⟨some "failed", none⟩, .ok "r2",
      .ok ⟨some "succeeded", none⟩⟩).appsLaunched :=
  C2_stage1_failure_gates_stage2 _ "r1" ⟨some "failed", none⟩ rfl rfl rfl
    (by decide)

/-- **C3**: with a positive timeout, if every status observed while
`elapsed ≤ timeout` is non-terminal (here: the first `M+1` fetches are
non-terminal and `M * poll_interval` already exceeds the timeout), the
waiter raises `TimeoutError` rather than returning a non-terminal
payload. -/
theorem C3_timeout_raises (fetch : Nat → RunPayload) (poll t M fuel : Nat)
    (ht : 0 < t)
    (hnt : ∀ j, j ≤ M → isTerminal (statusOf (fetch j)) = false)
    (hM : t < M * poll) (hfuel : M < fuel) :
    wait_for_run fetch poll (some t) fuel 0 = some WaitOutcome.timedOut :=
  wait_times_out hnt (by omega) hM fuel 0 (Nat.zero_le M) (by omega)

/-- **C3** (witness): a stream stuck on "running" with poll interval 2 and
timeout 3 times out. -/
theorem C3_witness :
    wait_for_run (fun _ => ⟨some "running", none⟩) 2 (some 3) 3 0 =
      some WaitOutcome.timedOut :=
  C3_timeout_raises _ 2 3 2 3 (by omega) (fun _ _ => rfl) (by omega) (by omega)

/-- **C4**: with the default timeout `None`, `wait_for_run` returns the
first status payload whose status is terminal, having slept once per
non-terminal fetch before it (`k` sleeps when the first terminal status is
the `k`-th fetch). -/
theorem C4_first_terminal (fetch : Nat → RunPayload) (poll k fuel : Nat)
    (hk : ∀ j, j < k → isTerminal (statusOf (fetch j)) = false)
    (hterm : isTerminal (statusOf (fetch k)) = true)
    (hfuel : k < fuel) :
    wait_for_run fetch poll none fuel 0 =
      some (WaitOutcome.completed (fetch k) k) :=
  wait_completes (t := none) rfl hk hterm fuel 0 (Nat.zero_le k) (by omega)

/-- **C4** (witness): a source answering "running", "running", "succeeded"
makes the waiter return the "succeeded" payload after exactly two
sleeps. -/
theorem C4_witness :
    wait_for_run
      (fun i => if i < 2 then ⟨some "running", none⟩ else ⟨some "succeeded", none⟩)
      2 none 3 0 = some (WaitOutcome.completed ⟨some "succeeded", none⟩ 2) :=
  C4_first_terminal _ 2 2 3
    (fun j hj => by interval_cases j <;> rfl) rfl (by omega)

/-- **C5**: `get_auth_headers` prefers the API key, then the session token,
then a token from the cached session file, and errors when none is
available; `run_app` obtains the headers before the POST, so an
authentication failure yields no network call. -/
theorem C5_auth_priority (a : AuthInputs) (r : StartRunResponse) :
    (truthy a.apiKey = true →
      get_auth_headers a = .ok [("Content-Type", "application/json"),
        ("Authorization", "Bearer " ++ a.apiKey.getD "")]) ∧
    (truthy a.apiKey = false → truthy a.sessionToken = true →
      get_auth_headers a = .ok [("Content-Type", "application/json"),
        ("Authorization", "Bearer " ++ a.sessionToken.getD "")]) ∧
    (∀ tok, truthy a.apiKey = false → truthy a.sessionToken = false →
      a.sessionFile = some (some tok) →
      get_auth_headers a = .ok [("Content-Type", "application/json"),
        ("Authorization", "Bearer " ++ tok)]) ∧
    (truthy a.apiKey = false → truthy a.sessionToken = false →
      a.sessionFile = none ∨ a.sessionFile = some none →
      get_auth_headers a = .error "No Tower API authentication found") ∧
    (∀ m, get_auth_headers a = .error m →
      (run_app a r).networkCalled = false ∧
      (run_app a r).result = .error (.authError m)) := by
  refine ⟨?_, ?_, ?_, ?_, ?_⟩
  · intro h
    simp [get_auth_headers, h]
  · intro h1 h2
    simp [get_auth_headers, h1, h2]
  · intro tok h1 h2 h3
    simp [get_auth_headers, h1, h2, h3]
  · intro h1 h2 h3
    rcases h3 with h3 | h3 <;> simp [get_auth_headers, h1, h2, h3]
  · intro m hm
    simp [run_app, hm]

/-- **C5** (witness): with both an API key and a session token set, the
API key wins. -/
theorem C5_witness :
    get_auth_headers ⟨some "k1", some "t1", none⟩ =
      .ok [("Content-Type", "application/json"), ("Authorization", "Bearer k1")] :=
  (C5_auth_priority ⟨some "k1", some "t1", none⟩ ⟨none, none⟩).1 rfl

/-- **C6** (counterexample to the claim as stated): in the response whose
`run_id` field is present but the empty string and whose `id` field is
absent, a field is present, yet extraction fails and `run_app` raises the
response-format error — Python `or` and `if not run_id` treat falsy values
as missing. -/
theorem C6_counterexample :
    (⟨some "", none⟩ : StartRunResponse).run_id ≠ none ∧
    extract_run_id ⟨some "", none⟩ = none ∧
    (run_app ⟨some "k", none, none⟩ ⟨some "", none⟩).result =
      .error AppError.responseFormatError :=
  ⟨by decide, rfl, rfl⟩

/-- **C6** (amended): `run_app` raises the response-format error exactly
when both the `run_id` and the `id` field are absent or empty (falsy); when
at least one is truthy it returns the extracted identifier, preferring a
truthy `run_id` over `id`. -/
theorem C6_extract_amended (r : StartRunResponse) :
    (extract_run_id r = none ↔ truthy r.run_id = false ∧ truthy r.id = false) ∧
    (truthy r.run_id = true → extract_run_id r = r.run_id) ∧
    (truthy r.run_id = false → truthy r.id = true → extract_run_id r = r.id) ∧
    (∀ a : AuthInputs, ∀ hs, get_auth_headers a = .ok hs →
      ((run_app a r).result = .error AppError.responseFormatError ↔
        extract_run_id r = none)) := by
  obtain ⟨ri, idf⟩ := r
  refine ⟨?_, ?_, ?_, ?_⟩
  · cases htr : truthy ri with
    | true =>
      simp only [extract_run_id, htr, if_true]
      cases ri with
      | none => simp [truthy] at htr
      | some s => simp [htr]
    | false =>
      cases hti : truthy idf with
      | true =>
        simp only [extract_run_id, htr, if_false, hti, if_true]
        cases idf with
        | none => simp [truthy] at hti
        | some s => simp [htr, hti]
      | false => simp [extract_run_id, htr, hti]
  · intro h
    simp [extract_run_id, h]
  · intro h1 h2
    simp [extract_run_id, h1, h2]
  · intro a hs hok
    simp only [run_app, hok]
    cases hex : extract_run_id ⟨ri, idf⟩ <;> simp [hex]

/-- **C6** (witness): both fields truthy — `run_id` wins. -/
theorem C6_witness : extract_run_id ⟨some "abc", some "xyz"⟩ = some "abc" :=
  (C6_extract_amended ⟨some "abc", some "xyz"⟩).2.1 rfl

/-- **C7**: a placeholder whose variable is absent resolves to its own
literal text (both callbacks), and a template all of whose variables are
absent passes through both resolvers unchanged; no error is raised (the
resolvers are total functions). -/
theorem C7_absent_placeholder_preserved (env : String → Option String) :
    (∀ name, env name = none →
      DbtRun.resolveValue env name = placeholder name ∧
      SlingRun.resolveValue env name = placeholder name) ∧
    ((∀ name, env name = none) → ∀ template,
      DbtRun.resolve_env_vars env template = template ∧
      SlingRun.resolve_env_vars env template = template) := by
  constructor
  · intro name h
    constructor
    · simp [DbtRun.resolveValue, h]
    · simp [SlingRun.resolveValue, h]
  · intro hall template
    have hd : ∀ s, DbtRun.resolveValue env s = placeholder s := fun s => by
      simp [DbtRun.resolveValue, hall s]
    have hs : ∀ s, SlingRun.resolveValue env s = placeholder s := fun s => by
      simp [SlingRun.resolveValue, hall s]
    constructor
    · unfold DbtRun.resolve_env_vars
      rw [resolveAux_id hd, mkToList]
    · unfold SlingRun.resolve_env_vars
      rw [resolveAux_id hs, mkToList]

/-- **C7** (witness): with no variables set, a mixed template is
preserved, placeholder text included. -/
theorem C7_witness :
    DbtRun.resolveValue (fun _ => none) "HOST" = placeholder "HOST" ∧
    DbtRun.resolve_env_vars (fun _ => none) "a: $\x7bHOST\x7d b" = "a: $\x7bHOST\x7d b" :=
  ⟨((C7_absent_placeholder_preserved (fun _ => none)).1 "HOST" rfl).1,
    ((C7_absent_placeholder_preserved (fun _ => none)).2 (fun _ => rfl)
      "a: $\x7bHOST\x7d b").1⟩

/-- **C8**: when both stages launch and both waits return status
"succeeded", the process exits with code 0 and both run identifiers are
among those printed. -/
theorem C8_success_exit0 (w : PipelineWorld) (rid1 rid2 : String)
    (st1 st2 : RunPayload)
    (h1 : w.slingLaunch = .ok rid1) (h2 : w.slingWait = .ok st1)
    (h3 : statusOf st1 = "succeeded")
    (h4 : w.dbtLaunch = .ok rid2) (h5 : w.dbtWait = .ok st2)
    (h6 : statusOf st2 = "succeeded") :
    (mainRun w).exitCode = 0 ∧ rid1 ∈ (mainRun w).printedRunIds ∧
      rid2 ∈ (mainRun w).printedRunIds := by
  obtain ⟨sl, sw, dl, dw⟩ := w
  simp only at h1 h2 h4 h5
  subst h1
  subst h2
  subst h4
  subst h5
  refine ⟨by simp [mainRun, h3, h6], by simp [mainRun, h3, h6],
    by simp [mainRun, h3, h6]⟩

/-- **C8** (witness): a fully successful pipeline run. -/
theorem C8_witness :
    (mainRun ⟨.ok "r1", .ok ⟨some "succeeded", none⟩, .ok "r2",
      .ok ⟨some "succeeded", none⟩⟩).exitCode = 0 ∧
    "r1" ∈ (mainRun ⟨.ok "r1", .ok ⟨some "succeeded", none⟩, .ok "r2",
      .ok ⟨some "succeeded", none⟩⟩).printedRunIds ∧
    "r2" ∈ (mainRun ⟨.ok "r1", .ok ⟨some "succeeded", none⟩, .ok "r2",
      .ok ⟨some "succeeded", none⟩⟩).printedRunIds :=
  C8_success_exit0 _ "r1" "r2" ⟨some "succeeded", none⟩ ⟨some "succeeded", none⟩
    rfl rfl rfl rfl rfl rfl

/-- **C9**: the sling-side resolver substitutes the environment value
verbatim for every present variable (it never adds quotes), so on the
numeric value `5432` its output differs from the dbt-side resolver's. -/
theorem C9_sling_verbatim_differs :
    (∀ (env : String → Option String) (name value : String),
      env name = some value → SlingRun.resolveValue env name = value) ∧
    SlingRun.resolve_env_vars (fun n => if n == "PORT" then some "5432" else none)
      "port: $\x7bPORT\x7d" = "port: 5432" ∧
    DbtRun.resolve_env_vars (fun n => if n == "PORT" then some "5432" else none)
      "port: $\x7bPORT\x7d" = "port: \"5432\"" ∧
    ("port: 5432" : String) ≠ "port: \"5432\"" :=
  ⟨fun env name value h => by simp [SlingRun.resolveValue, h], rfl, rfl, by decide⟩

/-- **C9** (witness): verbatim substitution even for a float-parsing
value. -/
theorem C9_witness : SlingRun.resolveValue (fun _ => some "3.14") "X" = "3.14" :=
  C9_sling_verbatim_differs.1 _ "X" "3.14" rfl

/-- **C10**: with timeout `None` (the default, used by `main` for both
stages) or timeout `0`, `wait_for_run` never raises `TimeoutError` — the
`if timeout and ...` guard is skipped for falsy timeouts — and it keeps
polling until the first terminal status, which it returns. -/
theorem C10_no_timeout_never_raises (fetch : Nat → RunPayload) (poll : Nat)
    (t : Option Nat) (ht : t = none ∨ t = some 0) :
    (∀ fuel i, wait_for_run fetch poll t fuel i ≠ some WaitOutcome.timedOut) ∧
    (∀ k fuel, (∀ j, j < k → isTerminal (statusOf (fetch j)) = false) →
      isTerminal (statusOf (fetch k)) = true → k < fuel →
      wait_for_run fetch poll t fuel 0 =
        some (WaitOutcome.completed (fetch k) k)) := by
  have htt : timeoutTruthy t = false := by
    rcases ht with h | h <;> subst h <;> rfl
  exact ⟨wait_ne_timedOut htt, fun k fuel hk hterm hf =>
    wait_completes htt hk hterm fuel 0 (Nat.zero_le k) (by omega)⟩

/-- **C10** (witness): timeout 0 with an always-"running" stream does not
time out (in contrast with the C3 witness, where timeout 3 does). -/
theorem C10_witness :
    wait_for_run (fun _ => ⟨some "running", none⟩) 2 (some 0) 5 0 ≠
      some WaitOutcome.timedOut :=
  (C10_no_timeout_never_raises _ 2 (some 0) (Or.inr rfl)).1 5 0

end SlingRunner
